import Mathlib

/-!
Verification of the `dongle` flashing tool (`src/dongle/utils.py`,
`src/dongle/cli.py`).

The orchestrator `flash_firmware` and the boot sequencer `boot` are embedded
shallowly: the external collaborators (serial transport commands, device
probing, firmware loading, the filesystem) are abstracted as an oracle
environment `Env` of their observable results, and each run is modelled as a
pure function producing the trace of commands issued plus a terminal outcome.
-/

namespace Dongle

/-- Lowercase hexadecimal rendering of a natural number, as Python's `"%x"`. -/
def hex (n : Nat) : String :=
  String.mk (Nat.toDigits 16 n)

/-- A device profile as used by the orchestrator: flash start address and
whether the speed-upgrade (external oscillator) command is supported
(`CC2538` / `CC26xx` classes of the bootloader library). -/
structure DeviceProfile where
  flash_start_addr : Nat
  has_cmd_set_xosc : Bool
deriving DecidableEq, Repr

/-- Oracle environment: the observable results of the external collaborators
(serial transport, device, firmware image) consumed by one flashing run. -/
structure Env where
  /-- result of the first `sendSynch` handshake -/
  synch1 : Bool
  /-- `CHIP_ID_STRS.get(chip_id, None)`: the chip-id lookup result -/
  chipIdStr : Option String
  /-- profile constructed by `CC2538(cmd)` -/
  cc2538 : DeviceProfile
  /-- profile constructed by `CC26xx(cmd)` -/
  cc26xx : DeviceProfile
  /-- result of `cmdSetXOsc` -/
  setXOscOk : Bool
  /-- result of `sendSynch` after reopening at high speed -/
  synch2 : Bool
  /-- result of `device.erase()` -/
  eraseOk : Bool
  /-- result of `cmd.writeMemory` for the firmware image -/
  writeOk : Bool
  /-- result of `cmd.writeMemory` for the IEEE address -/
  writeIeeeOk : Bool
  /-- `firmware.crc32()` -/
  crcLocal : Nat
  /-- `len(firmware.bytes)` -/
  fwLen : Nat
  /-- `device.crc(address, len(firmware.bytes))` -/
  crcTarget : Nat
deriving DecidableEq, Repr

/-- The run configuration dictionary `conf` of `flash_firmware`. -/
structure Conf where
  port : String
  baud : Nat
  force_speed : Nat
  address : Option Nat
  force : Nat
  erase : Nat
  write : Nat
  erase_page : Nat
  verify : Nat
  read : Nat
  len : Nat
  fname : String
  ieee_address : Nat
  bootloader_active_high : Bool
  bootloader_invert_lines : Bool
  disable_bootloader : Nat
deriving DecidableEq, Repr

/-- The fixed configuration built at the top of `flash_firmware` (utils.py
lines 108-125); only the port comes from the caller. -/
def initConf (port : String) : Conf :=
  { port := port
    baud := 115200
    force_speed := 0
    address := none
    force := 0
    erase := 1
    write := 1
    erase_page := 0
    verify := 1
    read := 0
    len := 0x80000
    fname := ""
    ieee_address := 0
    bootloader_active_high := false
    bootloader_invert_lines := false
    disable_bootloader := 0 }

/-- Commands/events issued to the target during a flashing run. -/
inductive Event where
  /-- `cmd.open(port, baud)` -/
  | openPort (port : String) (baud : Nat)
  /-- `cmd.invoke_bootloader(...)` -/
  | invokeBootloader
  /-- `cmd.sendSynch()` -/
  | sendSynch
  /-- `cmd.cmdGetChipId()` -/
  | getChipId
  /-- `cmd.cmdSetXOsc()` -/
  | setXOsc
  /-- `cmd.close()` -/
  | close
  /-- `device.erase()` (mass erase) -/
  | eraseAll
  /-- `cmd.cmdEraseMemory(...)` (partial page erase) -/
  | erasePage
  /-- `cmd.writeMemory(address, firmware.bytes)` -/
  | writeMemory (address : Option Nat)
  /-- `device.crc(address, len)` -/
  | crcCheck (address : Option Nat) (len : Nat)
  /-- `cmd.cmdReset()` -/
  | reset
  /-- `cmd.writeMemory(device.addr_ieee_address_secondary, ...)` -/
  | writeIeee
  /-- the readback loop (`device.read_memory` repeated) -/
  | readStage (address : Option Nat) (len : Nat)
  /-- `device.disable_bootloader()` -/
  | disableBl
deriving DecidableEq, Repr

/-- Result of one intermediate point of the run: trace so far, the raised
exception message if any (`none` = no exception), and the configuration. -/
abbrev RunState := List Event × Option String × Conf

/-- Device variant selection of the Identify stage (utils.py lines 150-158):
unknown chip id falls back to `CC26xx`, a recognized one selects `CC2538`. -/
def deviceSel (env : Env) : DeviceProfile :=
  if env.chipIdStr = none then env.cc26xx else env.cc2538

/-- Final stage (utils.py line 273): the unconditional `cmd.cmdReset()` on the
success path, after which the try-block ends with no exception. -/
def stageFinish (conf : Conf) (tr : List Event) : RunState :=
  (tr ++ [.reset], none, conf)

/-- Disable-bootloader stage (utils.py lines 270-271). -/
def stageDisable (conf : Conf) (tr : List Event) : RunState :=
  if conf.disable_bootloader ≠ 0 then
    stageFinish conf (tr ++ [.disableBl])
  else
    stageFinish conf tr

/-- Readback stage (utils.py lines 240-268): requested length rounded up to a
4-byte boundary, memory read word by word. -/
def stageRead (conf : Conf) (tr : List Event) : RunState :=
  if conf.read ≠ 0 then
    let length := (conf.len + 3) - (conf.len + 3) % 4
    stageDisable conf (tr ++ [.readStage conf.address length])
  else
    stageDisable conf tr

/-- IEEE-address programming stage (utils.py lines 226-238). -/
def stageIeee (env : Env) (conf : Conf) (tr : List Event) : RunState :=
  if conf.ieee_address ≠ 0 then
    if env.writeIeeeOk then
      stageRead conf (tr ++ [.writeIeee])
    else
      (tr ++ [.writeIeee], some "Set address failed                       ", conf)
  else
    stageRead conf tr

/-- Verify stage (utils.py lines 210-224): compare the locally computed CRC32
with the target-reported one; on mismatch a reset is issued and then an
exception with both values in hexadecimal is raised. -/
def stageVerify (env : Env) (conf : Conf) (tr : List Event) : RunState :=
  if conf.verify ≠ 0 then
    let crc_local := env.crcLocal
    let tr := tr ++ [.crcCheck conf.address env.fwLen]
    let crc_target := env.crcTarget
    if crc_local = crc_target then
      stageIeee env conf tr
    else
      (tr ++ [.reset],
       some ("NO CRC32 match: Local = 0x" ++ hex crc_local ++
             ", Target = 0x" ++ hex crc_target),
       conf)
  else
    stageIeee env conf tr

/-- Write stage (utils.py lines 202-208). -/
def stageWrite (env : Env) (conf : Conf) (tr : List Event) : RunState :=
  if conf.write ≠ 0 then
    if env.writeOk then
      stageVerify env conf (tr ++ [.writeMemory conf.address])
    else
      (tr ++ [.writeMemory conf.address], some "Write failed                       ", conf)
  else
    stageVerify env conf tr

/-- Partial-erase stage (utils.py lines 194-200). -/
def stageErasePage (env : Env) (conf : Conf) (tr : List Event) : RunState :=
  if conf.erase_page ≠ 0 then
    stageWrite env conf (tr ++ [.erasePage])
  else
    stageWrite env conf tr

/-- Mass-erase stage (utils.py lines 187-192). -/
def stageErase (env : Env) (conf : Conf) (tr : List Event) : RunState :=
  if conf.erase ≠ 0 then
    if env.eraseOk then
      stageErasePage env conf (tr ++ [.eraseAll])
    else
      (tr ++ [.eraseAll], some "Erase failed", conf)
  else
    stageErasePage env conf tr

/-- Speed-upgrade stage (utils.py lines 164-185): entered when speed is not
forced and the device supports `cmdSetXOsc`; on a successful switch the port
is closed and reopened at 1,000,000 baud and the handshake is repeated. -/
def stageSpeed (env : Env) (device : DeviceProfile) (conf : Conf) (tr : List Event) : RunState :=
  if conf.force_speed ≠ 1 ∧ device.has_cmd_set_xosc = true then
    if env.setXOscOk then
      let conf := { conf with baud := 1000000 }
      let tr := tr ++ [.setXOsc, .close, .openPort conf.port conf.baud, .sendSynch]
      if env.synch2 = false then
        (tr,
         some "Can't connect to target after clock source switch. (Check external crystal)",
         conf)
      else
        stageErase env conf tr
    else
      (tr ++ [.setXOsc],
       some "Can't switch target to external clock source. (Try forcing speed)",
       conf)
  else
    stageErase env conf tr

/-- Identify stage (utils.py lines 150-162): query the chip id, select the
device variant (CC26xx fallback on an unrecognized id), and default the
address to the device's flash start address when unset. -/
def stageIdentify (env : Env) (conf : Conf) (tr : List Event) : RunState :=
  let tr := tr ++ [.getChipId]
  let device := deviceSel env
  let conf :=
    match conf.address with
    | none => { conf with address := some device.flash_start_addr }
    | some _ => conf
  stageSpeed env device conf tr

/-- The body of `flash_firmware`'s try-block (utils.py lines 126-273): open
the port, invoke the bootloader, load the firmware and synchronize when write
or verify is requested, then run the stage chain.  Returns the trace, the
raised exception message if any, and the final configuration. -/
def runFlash (env : Env) (conf : Conf) : RunState :=
  let tr : List Event := [.openPort conf.port conf.baud, .invokeBootloader]
  if conf.write ≠ 0 ∨ conf.verify ≠ 0 then
    let tr := tr ++ [.sendSynch]
    if env.synch1 then
      stageIdentify env conf tr
    else
      (tr,
       some "Can't connect to target. Ensure boot loader is started. (no answer on synch sequence)",
       conf)
  else
    stageIdentify env conf tr

/-- Terminal behavior of one `flash_firmware` call: a normal return, or a
process exit with a non-zero status carrying a message (Python `exit(str)`). -/
inductive FlashResult where
  | normal
  | exited (msg : String)
deriving DecidableEq, Repr

/-- `flash_firmware(port, firmware_path, exit_)` (utils.py lines 91-279): the
try-block runs the stage chain; any exception is caught at the boundary and,
when `exit_` is set, turned into `exit("ERROR: %s" % err)`. -/
def flash_firmware (env : Env) (port : String) (firmware_path : String)
    (exitFlag : Bool) : List Event × FlashResult :=
  let r := runFlash env (initConf port)
  match r.2.1 with
  | none => (r.1, .normal)
  | some msg => (r.1, if exitFlag then .exited ("ERROR: " ++ msg) else .normal)

/-- `get_dev` (utils.py lines 42-50): board-identity keyed alternate device
paths; the generic USB path is used unless the board is known and the generic
path is absent from the filesystem. -/
def get_dev (rpiType : String) (pathExists : String → Bool) : String :=
  let devs : List (String × String) :=
    [("Pi 3 Model B", "ttyS0"), ("Jetson Nano", "ttyTHS1")]
  let dev := "/dev/ttyUSB0"
  match devs.lookup rpiType with
  | some alt => if pathExists dev = false then "/dev/" ++ alt else dev
  | none => dev

/-- Whether `pat` occurs at the head of `s` (character lists). -/
def charsLeadWith : List Char → List Char → Bool
  | [], _ => true
  | _ :: _, [] => false
  | a :: as, b :: bs => a == b && charsLeadWith as bs

/-- Whether `pat` occurs anywhere inside `s` (character lists). -/
def charsContain (pat : List Char) : List Char → Bool
  | [] => pat.isEmpty
  | c :: cs => charsLeadWith pat (c :: cs) || charsContain pat cs

/-- Python's `pat in s` substring test. -/
def strContain (pat s : String) : Bool :=
  charsContain pat.data s.data

/-- GPIO-level events of the boot sequencer.  `outPair b r` is
`GPIO.output([bslpin, rstpin], ...)` driving bootloader-select to `b` and
reset to `r` (`true` = HIGH, `false` = LOW). -/
inductive GEvent where
  | setwarnings
  | setmode
  | setupPins
  | outPair (bsl rst : Bool)
  | outRst (v : Bool)
  | sleep300
  | flashCall (dev fw : String)
deriving DecidableEq, Repr

/-- One step of `boot`'s try-block: a GPIO/sleep action or the call into
`flash_firmware`. -/
inductive BootStep where
  | gpio (e : GEvent)
  | flashStep (dev fw : String)
deriving DecidableEq, Repr

/-- Bootloader-entry sequence (utils.py lines 72-75): both lines LOW, 300ms,
reset HIGH, 300ms. -/
def enterFlashSeq : List BootStep :=
  [.gpio (.outPair false false), .gpio .sleep300, .gpio (.outRst true), .gpio .sleep300]

/-- Return-to-run sequence (utils.py lines 82-85): bootloader-select HIGH and
reset LOW together, 300ms, reset HIGH, 300ms. -/
def returnToRunSeq : List BootStep :=
  [.gpio (.outPair true false), .gpio .sleep300, .gpio (.outRst true), .gpio .sleep300]

/-- The try-block of `boot` (utils.py lines 67-85): with a (truthy) firmware
path, bootloader entry then the flash call; unconditionally the
return-to-run sequence. -/
def bootSteps (dev : String) (fw : Option String) : List BootStep :=
  (match fw with
   | some f => if f.isEmpty then [] else enterFlashSeq ++ [.flashStep dev f]
   | none => []) ++ returnToRunSeq

/-- Terminal state of one `boot` call: GPIO switching skipped, normal
completion of the return-to-run sequence, a silent operator interrupt, or a
process exit propagated out of a failed flash call (`SystemExit` is not
caught by `except KeyboardInterrupt`). -/
inductive BootOutcome where
  | skipGpio
  | returnToRun
  | interrupted
  | exitedBoot (msg : String)
deriving DecidableEq, Repr

/-- Run the try-block steps.  `intr = some k` means a `KeyboardInterrupt`
fires before the k-th remaining step; it is caught silently.  A flash call
that exits the process stops the sequence with that exit. -/
def runSteps (env : Env) : Option Nat → List BootStep → List GEvent × BootOutcome
  | some 0, _ :: _ => ([], .interrupted)
  | _, [] => ([], .returnToRun)
  | i, .gpio e :: rest =>
    let r := runSteps env (i.map Nat.pred) rest
    (e :: r.1, r.2)
  | i, .flashStep d f :: rest =>
    match (flash_firmware env d f true).2 with
    | .normal =>
      let r := runSteps env (i.map Nat.pred) rest
      (.flashCall d f :: r.1, r.2)
    | .exited m => ([.flashCall d f], .exitedBoot m)

/-- `boot(firmware)` (utils.py lines 53-88): resolve the device path; when it
contains `ttyUSB0` skip GPIO entirely, otherwise configure the pins and run
the try-block, swallowing only a `KeyboardInterrupt`. -/
def boot (rpiType : String) (pathExists : String → Bool) (env : Env)
    (firmware : Option String) (intr : Option Nat) : List GEvent × BootOutcome :=
  let dev := get_dev rpiType pathExists
  if strContain "ttyUSB0" dev then
    ([], .skipGpio)
  else
    let r := runSteps env intr (bootSteps dev firmware)
    (GEvent.setwarnings :: GEvent.setmode :: GEvent.setupPins :: r.1, r.2)

/-- Count the events of a trace satisfying `p`. -/
def countEvents (p : Event → Bool) : List Event → Nat
  | [] => 0
  | e :: t => (if p e then 1 else 0) + countEvents p t

/-- Count the GPIO events of a boot trace satisfying `p`. -/
def countG (p : GEvent → Bool) : List GEvent → Nat
  | [] => 0
  | e :: t => (if p e then 1 else 0) + countG p t

/-- Recognize the reset command. -/
def isReset : Event → Bool
  | .reset => true
  | _ => false

/-- Recognize any Erase, PartialErase, Write or Verify stage command. -/
def isEraseWriteVerify : Event → Bool
  | .eraseAll => true
  | .erasePage => true
  | .writeMemory _ => true
  | .crcCheck _ _ => true
  | _ => false

/-- Recognize the commands of the optional stages: partial erase,
IEEE-address programming, readback, bootloader disabling. -/
def isOptionalStage : Event → Bool
  | .erasePage => true
  | .writeIeee => true
  | .readStage _ _ => true
  | .disableBl => true
  | _ => false

/-- Recognize the first output of the return-to-run sequence
(bootloader-select HIGH, reset LOW). -/
def isReturnPair : GEvent → Bool
  | .outPair true false => true
  | _ => false

/-- Recognize a flash invocation inside the boot sequencer. -/
def isFlashCall : GEvent → Bool
  | .flashCall _ _ => true
  | _ => false

/-- The last event of a trace. -/
def lastEvent : List Event → Option Event
  | [] => none
  | [e] => some e
  | _ :: t => lastEvent t

/-! ## Helper lemmas -/

/-- Counting distributes over trace concatenation. -/
theorem countEvents_append (p : Event → Bool) (l1 l2 : List Event) :
    countEvents p (l1 ++ l2) = countEvents p l1 + countEvents p l2 := by
  induction l1 with
  | nil => simp [countEvents]
  | cons e t ih => simp [countEvents, ih, Nat.add_assoc]

/-- The trace of a `flash_firmware` call is the trace of its try-block. -/
theorem flash_firmware_fst (env : Env) (port fp : String) (b : Bool) :
    (flash_firmware env port fp b).1 = (runFlash env (initConf port)).1 := by
  unfold flash_firmware
  cases h : (runFlash env (initConf port)).2.1 <;> simp [h]

/-! ## Sample environments for concrete runs -/

/-- An environment in which every collaborator call succeeds and the two
CRC32 values agree (the spec's end-to-end success scenario). -/
def envOk : Env :=
  { synch1 := true, chipIdStr := none,
    cc2538 := ⟨0x200000, true⟩, cc26xx := ⟨0, true⟩,
    setXOscOk := true, synch2 := true, eraseOk := true, writeOk := true,
    writeIeeeOk := true, crcLocal := 0x8bb98613, fwLen := 4,
    crcTarget := 0x8bb98613 }

/-- Like `envOk` but the target reports a different CRC32. -/
def envMismatch : Env :=
  { envOk with crcTarget := 0xdeadbeef }

/-- Like `envOk` but the first synchronization handshake fails. -/
def envConnFail : Env :=
  { envOk with synch1 := false }

/-- Like `envOk` but the external-oscillator switch command fails. -/
def envXOscFail : Env :=
  { envOk with setXOscOk := false }

/-- Like `envOk` but the re-synchronization after the baud change fails. -/
def envResynchFail : Env :=
  { envOk with synch2 := false }

/-! ## Claims -/

/-- C9: `get_dev` on board "Pi 3 Model B" with the generic path absent
resolves to `/dev/ttyS0`; with the generic path present it resolves to
`/dev/ttyUSB0` regardless of the board identity. -/
theorem get_dev_resolution (pe : String → Bool) :
    (pe "/dev/ttyUSB0" = false → get_dev "Pi 3 Model B" pe = "/dev/ttyS0") ∧
    (∀ bt : String, pe "/dev/ttyUSB0" = true → get_dev bt pe = "/dev/ttyUSB0") := by
  constructor
  · intro h
    simp [get_dev, h]
  · intro bt h
    unfold get_dev
    cases hl : List.lookup bt [("Pi 3 Model B", "ttyS0"), ("Jetson Nano", "ttyTHS1")] with
    | none => simp [hl]
    | some alt => simp [hl, h]

/-- Witness for C9 at two concrete filesystems. -/
theorem get_dev_resolution_witness :
    get_dev "Pi 3 Model B" (fun _ => false) = "/dev/ttyS0" ∧
    get_dev "Pi 3 Model B" (fun _ => true) = "/dev/ttyUSB0" :=
  ⟨(get_dev_resolution (fun _ => false)).1 rfl,
   (get_dev_resolution (fun _ => true)).2 "Pi 3 Model B" rfl⟩

/-- C4 counterexample: on "Pi 3 Model B" with the board-specific alternate
path `/dev/ttyS0` present on the filesystem (every path present), `get_dev`
does not resolve to the alternate path: the code tests the generic path's
existence, not the alternate's. -/
theorem get_dev_alt_present_cex :
    (fun _ : String => true) "/dev/ttyS0" = true ∧
    get_dev "Pi 3 Model B" (fun _ => true) = "/dev/ttyUSB0" ∧
    get_dev "Pi 3 Model B" (fun _ => true) ≠ "/dev/ttyS0" := by
  refine ⟨rfl, by simp [get_dev], by simp [get_dev]⟩

/-- C4 amended: for every known board, `get_dev` resolves to the
board-specific alternate path exactly when the generic path `/dev/ttyUSB0`
is absent from the filesystem, and to the generic path otherwise. -/
theorem get_dev_known_board (pe : String → Bool) (bt alt : String)
    (hb : List.lookup bt [("Pi 3 Model B", "ttyS0"), ("Jetson Nano", "ttyTHS1")]
            = some alt) :
    (pe "/dev/ttyUSB0" = false → get_dev bt pe = "/dev/" ++ alt) ∧
    (pe "/dev/ttyUSB0" = true → get_dev bt pe = "/dev/ttyUSB0") := by
  constructor
  · intro h
    simp [get_dev, hb, h]
  · intro h
    simp [get_dev, hb, h]

/-- Witness for the amended C4 on the Jetson Nano board. -/
theorem get_dev_known_board_witness :
    get_dev "Jetson Nano" (fun _ => false) = "/dev/ttyTHS1" ∧
    get_dev "Jetson Nano" (fun _ => true) = "/dev/ttyUSB0" :=
  ⟨(get_dev_known_board (fun _ => false) "Jetson Nano" "ttyTHS1" rfl).1 rfl,
   (get_dev_known_board (fun _ => true) "Jetson Nano" "ttyTHS1" rfl).2 rfl⟩

/-- C2: when the first synchronization fails, the run stops after
open/invoke/synch — no Identify, SpeedUpgrade, Erase, Write, Verify or Reset
command is issued — and the process exits with the connect-failure message
instructing the operator to start the bootloader. -/
theorem flash_connect_failure (env : Env) (port fp : String)
    (h : env.synch1 = false) :
    flash_firmware env port fp true =
      ([.openPort port 115200, .invokeBootloader, .sendSynch],
       .exited "ERROR: Can't connect to target. Ensure boot loader is started. (no answer on synch sequence)") := by
  simp [flash_firmware, runFlash, initConf, h]

/-- Witness for C2 on a concrete environment with a dead target. -/
theorem flash_connect_failure_witness :
    flash_firmware envConnFail "/dev/ttyUSB0" "fw.hex" true =
      ([.openPort "/dev/ttyUSB0" 115200, .invokeBootloader, .sendSynch],
       .exited "ERROR: Can't connect to target. Ensure boot loader is started. (no answer on synch sequence)") :=
  flash_connect_failure envConnFail "/dev/ttyUSB0" "fw.hex" rfl

/-- C8: when the resolved device path is the generic USB-serial path, `boot`
performs no GPIO operation and no flash call at all — firmware supplied or
not — and terminates in the SkipGpio state. -/
theorem boot_generic_skips_gpio (bt : String) (pe : String → Bool) (env : Env)
    (fw : Option String) (intr : Option Nat)
    (h : get_dev bt pe = "/dev/ttyUSB0") :
    boot bt pe env fw intr = ([], .skipGpio) := by
  simp only [boot, h]
  rfl

/-- Witness for C8: unknown board, generic path present, firmware supplied. -/
theorem boot_generic_skips_gpio_witness :
    boot "unknow" (fun _ => true) envOk (some "fw.hex") none = ([], .skipGpio) :=
  boot_generic_skips_gpio "unknow" (fun _ => true) envOk (some "fw.hex") none rfl

/-- C1: in a run that reaches the Verify stage (handshakes, speed switch,
erase and write all succeed), equal CRC32 values let the run continue to the
final reset and end in success, while differing values cause exactly one
reset command followed by a process exit whose message carries both CRC
values in lowercase hexadecimal. -/
theorem flash_verify_crc (env : Env) (port fp : String)
    (h1 : env.synch1 = true) (h2 : env.setXOscOk = true) (h3 : env.synch2 = true)
    (h4 : env.eraseOk = true) (h5 : env.writeOk = true) :
    (env.crcLocal = env.crcTarget →
       (flash_firmware env port fp true).2 = .normal ∧
       lastEvent (flash_firmware env port fp true).1 = some .reset ∧
       countEvents isReset (flash_firmware env port fp true).1 = 1) ∧
    (env.crcLocal ≠ env.crcTarget →
       (flash_firmware env port fp true).2 =
         .exited ("ERROR: " ++ ("NO CRC32 match: Local = 0x" ++ hex env.crcLocal ++
                  ", Target = 0x" ++ hex env.crcTarget)) ∧
       lastEvent (flash_firmware env port fp true).1 = some .reset ∧
       countEvents isReset (flash_firmware env port fp true).1 = 1) := by
  constructor
  · intro hcrc
    cases hx : (deviceSel env).has_cmd_set_xosc <;>
      simp [flash_firmware, runFlash, stageIdentify, stageSpeed, stageErase,
            stageErasePage, stageWrite, stageVerify, stageIeee, stageRead,
            stageDisable, stageFinish, initConf, h1, h2, h3, h4, h5, hx, hcrc,
            countEvents, isReset, lastEvent]
  · intro hcrc
    cases hx : (deviceSel env).has_cmd_set_xosc <;>
      simp [flash_firmware, runFlash, stageIdentify, stageSpeed, stageErase,
            stageErasePage, stageWrite, stageVerify, stageIeee, stageRead,
            stageDisable, stageFinish, initConf, h1, h2, h3, h4, h5, hx, hcrc,
            countEvents, isReset, lastEvent]

/-- Witness for C1: matching CRCs give a normal return, mismatching CRCs
give the exit message with both values in hexadecimal. -/
theorem flash_verify_crc_witness :
    (flash_firmware envOk "/dev/ttyUSB0" "fw.hex" true).2 = .normal ∧
    (flash_firmware envMismatch "/dev/ttyUSB0" "fw.hex" true).2 =
      .exited ("ERROR: " ++ ("NO CRC32 match: Local = 0x" ++ hex 0x8bb98613 ++
               ", Target = 0x" ++ hex 0xdeadbeef)) :=
  ⟨((flash_verify_crc envOk "/dev/ttyUSB0" "fw.hex" rfl rfl rfl rfl rfl).1 rfl).1,
   ((flash_verify_crc envMismatch "/dev/ttyUSB0" "fw.hex" rfl rfl rfl rfl rfl).2
      (by decide)).1⟩

/-- C3: in a run entering the SpeedUpgrade stage (speed not forced — as the
fixed configuration has it — and the selected device supporting the
external-oscillator command), a failed switch command is a fatal exit with
no later stage attempted; a successful switch closes the port, reopens it at
1,000,000 baud and re-synchronizes, and a failed re-synchronization is a
fatal exit with no Erase, Write or Verify command ever issued. -/
theorem flash_speed_upgrade (env : Env) (port fp : String)
    (h1 : env.synch1 = true)
    (hx : (deviceSel env).has_cmd_set_xosc = true) :
    (env.setXOscOk = false →
       flash_firmware env port fp true =
         ([.openPort port 115200, .invokeBootloader, .sendSynch, .getChipId, .setXOsc],
          .exited "ERROR: Can't switch target to external clock source. (Try forcing speed)")) ∧
    (env.setXOscOk = true → env.synch2 = false →
       flash_firmware env port fp true =
         ([.openPort port 115200, .invokeBootloader, .sendSynch, .getChipId,
           .setXOsc, .close, .openPort port 1000000, .sendSynch],
          .exited "ERROR: Can't connect to target after clock source switch. (Check external crystal)")) := by
  constructor
  · intro ho
    simp [flash_firmware, runFlash, stageIdentify, stageSpeed, initConf,
          h1, hx, ho]
  · intro ho hs
    simp [flash_firmware, runFlash, stageIdentify, stageSpeed, initConf,
          h1, hx, ho, hs]

/-- Witness for C3 on concrete environments for both failure modes. -/
theorem flash_speed_upgrade_witness :
    flash_firmware envXOscFail "/dev/ttyS0" "fw.hex" true =
      ([.openPort "/dev/ttyS0" 115200, .invokeBootloader, .sendSynch, .getChipId, .setXOsc],
       .exited "ERROR: Can't switch target to external clock source. (Try forcing speed)") ∧
    flash_firmware envResynchFail "/dev/ttyS0" "fw.hex" true =
      ([.openPort "/dev/ttyS0" 115200, .invokeBootloader, .sendSynch, .getChipId,
        .setXOsc, .close, .openPort "/dev/ttyS0" 1000000, .sendSynch],
       .exited "ERROR: Can't connect to target after clock source switch. (Check external crystal)") :=
  ⟨(flash_speed_upgrade envXOscFail "/dev/ttyS0" "fw.hex" rfl rfl).1 rfl,
   (flash_speed_upgrade envResynchFail "/dev/ttyS0" "fw.hex" rfl rfl).2 rfl rfl⟩

/-- C7: with an unrecognized chip id (and the handshake succeeded), the
Identify stage selects the CC13xx/CC26xx fallback profile, and the run
continues into the speed-upgrade stage — it does not fail on the id — with
the unset address defaulted to the selected device's flash start address. -/
theorem flash_unknown_chip_fallback (env : Env) (port : String)
    (hid : env.chipIdStr = none) (hs : env.synch1 = true) :
    deviceSel env = env.cc26xx ∧
    runFlash env (initConf port) =
      stageSpeed env env.cc26xx
        { initConf port with address := some env.cc26xx.flash_start_addr }
        [.openPort port 115200, .invokeBootloader, .sendSynch, .getChipId] := by
  constructor
  · simp [deviceSel, hid]
  · simp [runFlash, stageIdentify, deviceSel, initConf, hid, hs]

/-- Witness for C7 on a concrete environment with an unknown chip id. -/
theorem flash_unknown_chip_fallback_witness :
    deviceSel envOk = envOk.cc26xx :=
  (flash_unknown_chip_fallback envOk "/dev/ttyUSB0" rfl rfl).1

/-! ## Optional stages are dead under the fixed configuration (C10) -/

/-- The final reset appends no optional-stage command. -/
theorem optCount_stageFinish (conf : Conf) (tr : List Event) :
    countEvents isOptionalStage (stageFinish conf tr).1 =
      countEvents isOptionalStage tr := by
  simp [stageFinish, countEvents_append, countEvents, isOptionalStage]

/-- With the disable-bootloader flag clear, that stage appends nothing. -/
theorem optCount_stageDisable (conf : Conf) (tr : List Event)
    (hd : conf.disable_bootloader = 0) :
    countEvents isOptionalStage (stageDisable conf tr).1 =
      countEvents isOptionalStage tr := by
  simp [stageDisable, hd, optCount_stageFinish]

/-- With the read flag clear, the readback stage appends nothing. -/
theorem optCount_stageRead (conf : Conf) (tr : List Event)
    (hr : conf.read = 0) (hd : conf.disable_bootloader = 0) :
    countEvents isOptionalStage (stageRead conf tr).1 =
      countEvents isOptionalStage tr := by
  simp [stageRead, hr, optCount_stageDisable _ _ hd]

/-- With the IEEE-address value zero, that stage appends nothing. -/
theorem optCount_stageIeee (env : Env) (conf : Conf) (tr : List Event)
    (hi : conf.ieee_address = 0) (hr : conf.read = 0)
    (hd : conf.disable_bootloader = 0) :
    countEvents isOptionalStage (stageIeee env conf tr).1 =
      countEvents isOptionalStage tr := by
  simp [stageIeee, hi, optCount_stageRead _ _ hr hd]

/-- The verify stage appends only non-optional commands. -/
theorem optCount_stageVerify (env : Env) (conf : Conf) (tr : List Event)
    (hi : conf.ieee_address = 0) (hr : conf.read = 0)
    (hd : conf.disable_bootloader = 0) :
    countEvents isOptionalStage (stageVerify env conf tr).1 =
      countEvents isOptionalStage tr := by
  unfold stageVerify
  split
  · dsimp only
    split
    · refine (optCount_stageIeee _ _ _ hi hr hd).trans ?_
      simp [countEvents_append, countEvents, isOptionalStage]
    · simp [countEvents_append, countEvents, isOptionalStage]
  · exact optCount_stageIeee _ _ _ hi hr hd

/-- The write stage appends only non-optional commands. -/
theorem optCount_stageWrite (env : Env) (conf : Conf) (tr : List Event)
    (hi : conf.ieee_address = 0) (hr : conf.read = 0)
    (hd : conf.disable_bootloader = 0) :
    countEvents isOptionalStage (stageWrite env conf tr).1 =
      countEvents isOptionalStage tr := by
  unfold stageWrite
  split
  · split
    · refine (optCount_stageVerify _ _ _ hi hr hd).trans ?_
      simp [countEvents_append, countEvents, isOptionalStage]
    · simp [countEvents_append, countEvents, isOptionalStage]
  · exact optCount_stageVerify _ _ _ hi hr hd

/-- With the partial-erase flag clear, that stage appends nothing. -/
theorem optCount_stageErasePage (env : Env) (conf : Conf) (tr : List Event)
    (hp : conf.erase_page = 0) (hi : conf.ieee_address = 0) (hr : conf.read = 0)
    (hd : conf.disable_bootloader = 0) :
    countEvents isOptionalStage (stageErasePage env conf tr).1 =
      countEvents isOptionalStage tr := by
  simp [stageErasePage, hp, optCount_stageWrite _ _ _ hi hr hd]

/-- The mass-erase stage appends only non-optional commands. -/
theorem optCount_stageErase (env : Env) (conf : Conf) (tr : List Event)
    (hp : conf.erase_page = 0) (hi : conf.ieee_address = 0) (hr : conf.read = 0)
    (hd : conf.disable_bootloader = 0) :
    countEvents isOptionalStage (stageErase env conf tr).1 =
      countEvents isOptionalStage tr := by
  unfold stageErase
  split
  · split
    · refine (optCount_stageErasePage _ _ _ hp hi hr hd).trans ?_
      simp [countEvents_append, countEvents, isOptionalStage]
    · simp [countEvents_append, countEvents, isOptionalStage]
  · exact optCount_stageErasePage _ _ _ hp hi hr hd

/-- The speed-upgrade stage appends only non-optional commands. -/
theorem optCount_stageSpeed (env : Env) (device : DeviceProfile) (conf : Conf)
    (tr : List Event)
    (hp : conf.erase_page = 0) (hi : conf.ieee_address = 0) (hr : conf.read = 0)
    (hd : conf.disable_bootloader = 0) :
    countEvents isOptionalStage (stageSpeed env device conf tr).1 =
      countEvents isOptionalStage tr := by
  unfold stageSpeed
  split
  · split
    · dsimp only
      split
      · simp [countEvents_append, countEvents, isOptionalStage]
      · refine (optCount_stageErase env { conf with baud := 1000000 } _
          hp hi hr hd).trans ?_
        simp [countEvents_append, countEvents, isOptionalStage]
    · simp [countEvents_append, countEvents, isOptionalStage]
  · exact optCount_stageErase _ _ _ hp hi hr hd

/-- The identify stage appends only non-optional commands. -/
theorem optCount_stageIdentify (env : Env) (conf : Conf) (tr : List Event)
    (hp : conf.erase_page = 0) (hi : conf.ieee_address = 0) (hr : conf.read = 0)
    (hd : conf.disable_bootloader = 0) :
    countEvents isOptionalStage (stageIdentify env conf tr).1 =
      countEvents isOptionalStage tr := by
  unfold stageIdentify
  dsimp only
  cases hadr : conf.address with
  | none =>
    refine (optCount_stageSpeed env (deviceSel env)
      { conf with address := some (deviceSel env).flash_start_addr } _
      hp hi hr hd).trans ?_
    simp [countEvents_append, countEvents, isOptionalStage]
  | some a =>
    refine (optCount_stageSpeed env (deviceSel env) conf _ hp hi hr hd).trans ?_
    simp [countEvents_append, countEvents, isOptionalStage]

/-- C10: the public entry point fixes the whole run configuration to one
constant (only the port comes from the caller), and consequently no run,
whatever the collaborators answer, ever issues a partial-erase,
IEEE-address, readback or disable-bootloader command. -/
theorem flash_config_constant (port fp : String) (env : Env) :
    initConf port =
      ⟨port, 115200, 0, none, 0, 1, 1, 0, 1, 0, 0x80000, "", 0, false, false, 0⟩ ∧
    countEvents isOptionalStage (flash_firmware env port fp true).1 = 0 := by
  constructor
  · rfl
  · rw [flash_firmware_fst]
    unfold runFlash
    split
    · dsimp only
      split
      · refine (optCount_stageIdentify _ _ _ rfl rfl rfl rfl).trans ?_
        simp [countEvents, isOptionalStage]
      · simp [countEvents, isOptionalStage]
    · refine (optCount_stageIdentify _ _ _ rfl rfl rfl rfl).trans ?_
      simp [countEvents, isOptionalStage]

/-- C5: every exception raised inside `flash_firmware`'s try-block is
surfaced by the in-repo call sites (which leave the exit flag set): the
process exits with a non-zero status carrying `ERROR:` plus the underlying
message, a run with no exception returns normally, and the one silent abort
is `boot` swallowing a `KeyboardInterrupt` during its GPIO sequencing. -/
theorem flash_failures_surfaced :
    (∀ (env : Env) (port fp msg : String),
        (runFlash env (initConf port)).2.1 = some msg →
        (flash_firmware env port fp true).2 = .exited ("ERROR: " ++ msg)) ∧
    (∀ (env : Env) (port fp : String),
        (runFlash env (initConf port)).2.1 = none →
        (flash_firmware env port fp true).2 = .normal) ∧
    (∀ (bt : String) (pe : String → Bool) (env : Env) (fw : Option String),
        strContain "ttyUSB0" (get_dev bt pe) = false →
        (boot bt pe env fw (some 0)).2 = .interrupted) := by
  refine ⟨?_, ?_, ?_⟩
  · intro env port fp msg h
    simp [flash_firmware, h]
  · intro env port fp h
    simp [flash_firmware, h]
  · intro bt pe env fw h
    simp only [boot, h]
    cases fw with
    | none => rfl
    | some f =>
      by_cases he : f.isEmpty
      · simp [bootSteps, he, returnToRunSeq, runSteps]
      · simp [bootSteps, he, enterFlashSeq, returnToRunSeq, runSteps]

/-- Witness for C5: a failing connect surfaces as a non-zero exit, a clean
run returns normally, and an interrupted boot sequence aborts silently. -/
theorem flash_failures_surfaced_witness :
    (flash_firmware envConnFail "/dev/ttyUSB0" "fw.hex" true).2 =
      .exited ("ERROR: " ++ "Can't connect to target. Ensure boot loader is started. (no answer on synch sequence)") ∧
    (flash_firmware envOk "/dev/ttyUSB0" "fw.hex" true).2 = .normal ∧
    (boot "Pi 3 Model B" (fun _ => false) envOk (some "fw.hex") (some 0)).2 =
      .interrupted :=
  ⟨flash_failures_surfaced.1 envConnFail "/dev/ttyUSB0" "fw.hex" _ rfl,
   flash_failures_surfaced.2.1 envOk "/dev/ttyUSB0" "fw.hex" rfl,
   flash_failures_surfaced.2.2 "Pi 3 Model B" (fun _ => false) envOk
     (some "fw.hex") rfl⟩

/-- C6 counterexample: on a GPIO-wired device path with a firmware path
supplied, a fatal flash failure (here: the target never answers the
handshake) exits the process before the return-to-run sequence — the boot
trace contains no return-to-run output at all, refuting "in all cases ...
exactly one return-to-run sequence". -/
theorem boot_return_seq_cex :
    countG isReturnPair
        (boot "Pi 3 Model B" (fun _ => false) envConnFail (some "fw.hex") none).1 = 0 ∧
    (boot "Pi 3 Model B" (fun _ => false) envConnFail (some "fw.hex") none).2 =
      .exitedBoot "ERROR: Can't connect to target. Ensure boot loader is started. (no answer on synch sequence)" := by
  constructor
  · rfl
  · rfl

/-- C6 amended: on a GPIO-wired device path, with no interrupt, and with
flashing (when invoked) completing without a fatal failure: a supplied
firmware path gives the bootloader-entry sequence (both lines LOW, 300ms,
reset HIGH, 300ms), then the flash call on the resolved device, then exactly
one return-to-run sequence; no firmware gives exactly the return-to-run
sequence and no flash call. -/
theorem boot_gpio_sequences (bt : String) (pe : String → Bool) (env : Env)
    (hdev : strContain "ttyUSB0" (get_dev bt pe) = false) :
    (∀ f : String, f.isEmpty = false →
        (flash_firmware env (get_dev bt pe) f true).2 = .normal →
        boot bt pe env (some f) none =
          ([.setwarnings, .setmode, .setupPins,
            .outPair false false, .sleep300, .outRst true, .sleep300,
            .flashCall (get_dev bt pe) f,
            .outPair true false, .sleep300, .outRst true, .sleep300],
           .returnToRun)) ∧
    boot bt pe env none none =
      ([.setwarnings, .setmode, .setupPins,
        .outPair true false, .sleep300, .outRst true, .sleep300],
       .returnToRun) := by
  constructor
  · intro f he hf
    simp only [boot, hdev]
    simp [bootSteps, he, enterFlashSeq, returnToRunSeq, runSteps, hf]
  · simp only [boot, hdev]
    simp [bootSteps, returnToRunSeq, runSteps]

/-- Witness for the amended C6: a concrete GPIO-wired platform with a
successful flash, and the same platform with no firmware. -/
theorem boot_gpio_sequences_witness :
    boot "Pi 3 Model B" (fun _ => false) envOk (some "fw.hex") none =
      ([.setwarnings, .setmode, .setupPins,
        .outPair false false, .sleep300, .outRst true, .sleep300,
        .flashCall (get_dev "Pi 3 Model B" (fun _ => false)) "fw.hex",
        .outPair true false, .sleep300, .outRst true, .sleep300],
       .returnToRun) ∧
    boot "Pi 3 Model B" (fun _ => false) envOk none none =
      ([.setwarnings, .setmode, .setupPins,
        .outPair true false, .sleep300, .outRst true, .sleep300],
       .returnToRun) :=
  ⟨(boot_gpio_sequences "Pi 3 Model B" (fun _ => false) envOk rfl).1
      "fw.hex" rfl (by decide),
   (boot_gpio_sequences "Pi 3 Model B" (fun _ => false) envOk rfl).2⟩

end Dongle
